import Mathlib

/-!
Verification development for the Treasury Manager agent repository.

Monetary values are embedded as exact rationals (the Python source uses
floats and `Decimal`); each definition mirrors one Python function of the
repository, named after it where Lean allows.
-/

namespace Treasury

/-! ## Currency rounding helpers

`_format_currency` in the source rounds with
`Decimal(str(amount)).quantize(Decimal("0.01"), rounding=ROUND_HALF_UP)`:
half-up (away from zero on ties) to 2 decimal places.  Python `round(x, 1)`
rounds half-to-even to 1 decimal place. -/

/-- Half-up rounding to 2 decimal places, as `_format_currency` does
(`ROUND_HALF_UP` rounds ties away from zero). -/
def formatCurrency (x : ℚ) : ℚ :=
  if 0 ≤ x then ((⌊x * 100 + 1/2⌋ : ℤ) : ℚ) / 100
  else -(((⌊(-x) * 100 + 1/2⌋ : ℤ) : ℚ) / 100)

/-- Python `round(x, 1)`: half-to-even rounding to 1 decimal place. -/
def pyRound1 (x : ℚ) : ℚ :=
  let y := x * 10
  let n : ℤ := ⌊y⌋
  let r := y - (n : ℚ)
  ((if r < 1/2 then n else if 1/2 < r then n + 1
    else if n % 2 = 0 then n else n + 1 : ℤ) : ℚ) / 10

/-- A rational that is a whole number of cents. -/
def IsCenti (x : ℚ) : Prop := ∃ m : ℤ, x = (m : ℚ) / 100

/-! ## Payment Executor Tool (`payment_executor_tool.py`, `_run`)

The outcome of `_execute_usdt_transfer` depends on external Web3/client
utilities (address validation and a balance oracle), so each payment input
carries the boolean outcome of its simulated transfer (`ok` is true exactly
when the transfer result status is the string success).  The initial
balance comes from the external balance oracle and is a parameter. -/

/-- A payment given to the executor, with the outcome of its simulated
USDT transfer abstracted as a boolean. -/
structure ExecPayment where
  amount : ℚ
  ok : Bool
deriving DecidableEq, Repr

/-- One entry of `payments_processed` (lines 195-208 of the source). -/
structure ExecPaymentResult where
  amount : ℚ
  ok : Bool
  processingFee : ℚ
deriving DecidableEq, Repr

/-- The `summary` dict of the execution result (lines 228-235). -/
structure ExecSummary where
  totalPayments : ℕ
  successful : ℕ
  failed : ℕ
  totalAmountProcessed : ℚ
  processingFees : ℚ
  netAmount : ℚ
deriving DecidableEq, Repr

/-- The `balance_info` dict of the execution result (lines 237-241). -/
structure BalanceInfo where
  initialBalance : ℚ
  totalDebited : ℚ
  remainingBalance : ℚ
deriving DecidableEq, Repr

/-- The execution result built by `PaymentExecutorTool._run`. -/
structure ExecutionReport where
  paymentsProcessed : List ExecPaymentResult
  summary : ExecSummary
  balanceInfo : BalanceInfo
  status : String
deriving DecidableEq, Repr

/-- Total amount over the successfully transferred payments, as accumulated
by the loop at lines 181-221 (`total_amount_processed`). -/
def successTotal (pays : List ExecPayment) : ℚ :=
  ((pays.filter (·.ok)).map (·.amount)).sum

/-- The main body of `PaymentExecutorTool._run` after the approval and
custody-wallet checks: per-payment fee accounting, totals, balance info and
final status (lines 151-258). -/
def executeApproved (feeRate initialBalance : ℚ) (pays : List ExecPayment) :
    ExecutionReport :=
  let totalSuccess := pays.countP (·.ok)
  let totalFailed := pays.countP (fun p => !p.ok)
  let totalProcessed := successTotal pays
  let totalFees := totalProcessed * feeRate
  let remaining := initialBalance - totalProcessed - totalFees
  { paymentsProcessed :=
      pays.map (fun p =>
        { amount := p.amount, ok := p.ok, processingFee := p.amount * feeRate }),
    summary :=
      { totalPayments := pays.length,
        successful := totalSuccess,
        failed := totalFailed,
        totalAmountProcessed := totalProcessed,
        processingFees := totalFees,
        netAmount := totalProcessed - totalFees },
    balanceInfo :=
      { initialBalance := initialBalance,
        totalDebited := totalProcessed + totalFees,
        remainingBalance := max 0 remaining },
    status :=
      if totalFailed = 0 then "simulation_completed"
      else if 0 < totalSuccess then "simulation_partial_success"
      else "simulation_failed" }

/-- The three ways `PaymentExecutorTool._run` can return. -/
inductive ExecutorOutcome where
  | rejected
  | missingCustody
  | completed (report : ExecutionReport)
deriving DecidableEq, Repr

/-- `PaymentExecutorTool._run`: rejects a non-approved proposal, errors when
no custody wallet is given, otherwise executes (lines 135-258). -/
def executorRun (feeRate : ℚ) (approvalStatus : String)
    (custodyWallet : Option String) (initialBalance : ℚ)
    (pays : List ExecPayment) : ExecutorOutcome :=
  if approvalStatus ≠ "approved" then .rejected
  else
    match custodyWallet with
    | none => .missingCustody
    | some _ => .completed (executeApproved feeRate initialBalance pays)

/-! ## API server (`api_server.py`)

The Flask endpoint `submit_payment_approval` (lines 218-296) works on two
module-level dicts, `proposal_storage` and `execution_storage`; they are
embedded as association lists inside a `ServerState`. -/

/-- One entry of a stored proposal list `individual_payments`, with the
fields the endpoint reads. -/
structure ApiPayment where
  paymentId : String
  amount : ℚ
deriving DecidableEq, Repr

/-- The execution result dict built and stored by `submit_payment_approval`
(lines 245-282). -/
structure ApiExecutionResult where
  executionStatus : String
  approvalDecision : String
  executedPayments : List ApiPayment
  failedPayments : List ApiPayment
  totalExecutedAmount : ℚ
  remainingBalance : ℚ
deriving DecidableEq, Repr

/-- A stored proposal, with the fields `submit_payment_approval` reads:
its status, `excel_data.metadata.total_records`, and
`payment_proposal.individual_payments`. -/
structure StoredProposal where
  status : String
  totalRecords : ℕ
  payments : List ApiPayment
  paymentExecution : Option ApiExecutionResult
deriving DecidableEq, Repr

/-- The two module-level storage dicts of `api_server.py`. -/
structure ServerState where
  proposals : List (String × StoredProposal)
  executions : List (String × ApiExecutionResult)
deriving DecidableEq, Repr

/-- The JSON body of a POST to `/submit_payment_approval`. -/
structure ApprovalRequest where
  proposalId : Option String
  approvalDecision : String
  approvedPayments : List String
deriving DecidableEq, Repr

/-- The response of the endpoint, reduced to the observable fields. -/
structure ApiResponse where
  success : Bool
  httpStatus : ℕ
  executionStatus : Option String
deriving DecidableEq, Repr

/-- Dict assignment `d[k] = v` on an association list: replace the first
binding of `k`, or append a new one. -/
def setKey {α : Type} : List (String × α) → String → α → List (String × α)
  | [], k, v => [(k, v)]
  | (k0, v0) :: rest, k, v =>
      if k0 = k then (k, v) :: rest else (k0, v0) :: setKey rest k v

/-- The execution result `submit_payment_approval` computes from the stored
proposal and the decision (lines 245-279): executed/failed split, total
executed amount, status, and the simulated remaining balance
`total_records * 10000 - total_executed_amount`. -/
def computeExecution (prop : StoredProposal) (decision : String)
    (approved : List String) : ApiExecutionResult :=
  let base : ApiExecutionResult :=
    if decision = "approve_all" then
      { executionStatus := "SUCCESS", approvalDecision := decision,
        executedPayments := prop.payments, failedPayments := [],
        totalExecutedAmount := (prop.payments.map (·.amount)).sum,
        remainingBalance := 0 }
    else if decision = "partial" then
      let executed := prop.payments.filter (fun p => p.paymentId ∈ approved)
      let failedP := prop.payments.filter (fun p => p.paymentId ∉ approved)
      { executionStatus :=
          if failedP.isEmpty then "SUCCESS" else "PARTIAL_SUCCESS",
        approvalDecision := decision,
        executedPayments := executed, failedPayments := failedP,
        totalExecutedAmount := (executed.map (·.amount)).sum,
        remainingBalance := 0 }
    else
      { executionStatus := "FAILURE", approvalDecision := decision,
        executedPayments := [], failedPayments := prop.payments,
        totalExecutedAmount := 0, remainingBalance := 0 }
  { base with
    remainingBalance :=
      (prop.totalRecords : ℚ) * 10000 - base.totalExecutedAmount }

/-- The endpoint `submit_payment_approval` (lines 218-296): validates the
request, recomputes and stores the execution result, and marks the proposal
`PAYMENT_EXECUTED`.  It never consults the previous execution entry. -/
def submitPaymentApproval (s : ServerState) (req : ApprovalRequest) :
    ApiResponse × ServerState :=
  if req.proposalId.getD "" = "" ∨
      req.approvalDecision ∉ ["approve_all", "reject_all", "partial"] then
    ({ success := false, httpStatus := 400, executionStatus := none }, s)
  else
    let pid := req.proposalId.getD ""
    match s.proposals.lookup pid with
    | none =>
        ({ success := false, httpStatus := 404, executionStatus := none }, s)
    | some prop =>
        let ex := computeExecution prop req.approvalDecision req.approvedPayments
        let newProp :=
          { prop with status := "PAYMENT_EXECUTED", paymentExecution := some ex }
        ({ success := true, httpStatus := 200,
           executionStatus := some ex.executionStatus },
         { proposals := setKey s.proposals pid newProp,
           executions := setKey s.executions pid ex })

/-! ## Risk Assessment Tool (`risk_assessment_tool.py`)

A normalized record, with the fields the risk analysis reads.  Python
truthiness of an absent or falsy field is modelled by `Option` (`none` for
an absent key) and, for `amount`, by the value 0 (a record whose amount is
absent, `None`, or 0 is excluded from the amount list). -/

structure FinRecord where
  amount : ℚ
  recipient : Option String
  description : Option String
  date : Option String
  currency : Option String
  sheetName : String
  rowNumber : ℕ
deriving DecidableEq, Repr

/-- The user constraints read by the risk tool.  `minimum_balance` defaults
to 0 and `high_value_threshold` to 100000 when the key is absent, so they
are plain fields; `transaction_limit` and `daily_limit` are fetched without
a default and tested for truthiness, so they stay optional. -/
structure RiskConstraints where
  minimumBalance : ℚ
  transactionLimit : Option ℚ
  dailyLimit : Option ℚ
  highValueThreshold : ℚ
deriving DecidableEq, Repr

/-- The amount list `[float(r["amount"]) for r in records if r.get("amount")]`
(built identically at lines 101 and 178). -/
def riskAmounts (rs : List FinRecord) : List ℚ :=
  (rs.filter (fun r => r.amount ≠ 0)).map (fun r => r.amount)

/-- Number of amounts strictly above the high-value threshold (line 120). -/
def highValueCount (rs : List FinRecord) (c : RiskConstraints) : ℕ :=
  ((riskAmounts rs).filter (fun a => c.highValueThreshold < a)).length

/-- Risk scores contributed by `_analyze_amount_risks` (lines 99-152): the
high-value factor min(3.0, 0.5 * count) and the 4.0 aggregate factor when
the total exceeds the daily limit (default 1000000 here). -/
def amountRiskScores (rs : List FinRecord) (c : RiskConstraints) : List ℚ :=
  let amounts := riskAmounts rs
  if amounts.isEmpty then []
  else
    (if 0 < highValueCount rs c then
      [min 3 ((highValueCount rs c : ℚ) * (1/2))] else [])
    ++ (if c.dailyLimit.getD 1000000 < amounts.sum then [4] else [])

/-- Normalized recipient keys counted by `_analyze_transaction_patterns`
(lines 159-163): strip + lowercase, dropping empty and unknown. -/
def recipientKeys (rs : List FinRecord) : List String :=
  rs.filterMap (fun r =>
    let k := (r.recipient.getD "Unknown").trim.toLower
    if k ≠ "" ∧ k ≠ "unknown" then some k else none)

/-- Whether some recipient key occurs more than 3 times (line 166). -/
def hasHighFrequencyRecipient (rs : List FinRecord) : Bool :=
  (recipientKeys rs).any (fun k => 3 < (recipientKeys rs).count k)

/-- `amt % 100 == 0 and amt > 1000` (line 179): an exact multiple of 100
that exceeds 1000. -/
def isRoundNumber (a : ℚ) : Bool :=
  (a / 100).den = 1 ∧ 1000 < a

/-- Risk scores contributed by `_analyze_transaction_patterns`
(lines 154-190): 1.0 for repeated recipients and 1.5 when more than half
of the amounts are large round numbers. -/
def patternRiskScores (rs : List FinRecord) : List ℚ :=
  let amounts := riskAmounts rs
  (if hasHighFrequencyRecipient rs then [1] else [])
  ++ (if (amounts.length : ℚ) * (1/2) < ((amounts.filter isRoundNumber).length : ℚ)
      then [3/2] else [])

/-- A record missing required information (lines 204-210): recipient absent
or Unknown, description absent or the placeholder, or date absent. -/
def missingRequiredInfo (r : FinRecord) : Bool :=
  (match r.recipient with
   | none => true
   | some s => s = "" ∨ s = "Unknown")
  || (match r.description with
      | none => true
      | some s => s = "" ∨ s = "No description provided")
  || (match r.date with
      | none => true
      | some s => s = "")

/-- Risk scores contributed by `_analyze_compliance_risks` (lines 197-242):
2.0 (3.5 when more than 30 percent of records are affected) for missing
info, and 2.0 for multiple currencies. -/
def complianceRiskScores (rs : List FinRecord) : List ℚ :=
  let missingCount := rs.countP missingRequiredInfo
  (if 0 < missingCount then
    [if (rs.length : ℚ) * (3/10) < (missingCount : ℚ) then 7/2 else 2]
   else [])
  ++ (if 1 < ((rs.map (fun r => r.currency.getD "USD")).dedup).length
      then [2] else [])

/-- Python truthiness guard `if limit and x > limit`. -/
def truthyLt (lim : Option ℚ) (x : ℚ) : Bool :=
  match lim with
  | none => false
  | some l => l ≠ 0 ∧ l < x

/-- Violations a single record adds in `_analyze_user_constraints`
(lines 254-275): below minimum balance, above the transaction limit. -/
def recordViolationCount (c : RiskConstraints) (r : FinRecord) : ℕ :=
  (if r.amount < c.minimumBalance then 1 else 0)
  + (if truthyLt c.transactionLimit r.amount then 1 else 0)

/-- Total amount over all records (line 278; no truthiness filter here). -/
def totalAmountAll (rs : List FinRecord) : ℚ :=
  (rs.map (fun r => r.amount)).sum

/-- The number of constraint violations recorded by
`_analyze_user_constraints` (lines 244-290). -/
def constraintViolationCount (rs : List FinRecord) (c : RiskConstraints) : ℕ :=
  (rs.map (recordViolationCount c)).sum
  + (if truthyLt c.dailyLimit (totalAmountAll rs) then 1 else 0)

/-- All risk factor scores, in the category order summed by
`_calculate_overall_risk`. -/
def riskFactorScores (rs : List FinRecord) (c : RiskConstraints) : List ℚ :=
  amountRiskScores rs c ++ patternRiskScores rs ++ complianceRiskScores rs

/-- The summed pre-clamp risk score: factor scores plus 2.0 per constraint
violation (lines 294-304). -/
def totalRiskScore (rs : List FinRecord) (c : RiskConstraints) : ℚ :=
  (riskFactorScores rs c).sum + (constraintViolationCount rs c : ℚ) * 2

/-- Output of `_calculate_overall_risk` (lines 292-317). -/
structure OverallRisk where
  overallScore : ℚ
  riskLevel : String
deriving DecidableEq, Repr

/-- `_calculate_overall_risk`: sums factor scores, adds 2.0 per violation,
clamps at 10 and maps the pre-clamp total to a level. -/
def calculateOverallRisk (scores : List ℚ) (violations : ℕ) : OverallRisk :=
  let total := scores.sum
    + (if violations ≠ 0 then (violations : ℚ) * 2 else 0)
  { overallScore := min 10 total,
    riskLevel :=
      if 7 ≤ total then "CRITICAL"
      else if 4 ≤ total then "HIGH"
      else if 2 ≤ total then "MEDIUM"
      else "LOW" }

/-- The fields of the risk report the claims are about. -/
structure RiskReport where
  overallScore : ℚ
  riskLevel : String
  complianceStatus : String
  totalAmount : ℚ
  flaggedTransactionCount : ℕ
deriving DecidableEq, Repr

/-- `RiskAssessmentTool._run` (lines 27-97): empty record sets return the
initial LOW report, otherwise the four analyses run and
`_calculate_overall_risk` fills in score and level. -/
def runRiskAssessment (rs : List FinRecord) (c : RiskConstraints) : RiskReport :=
  if rs.isEmpty then
    { overallScore := 0, riskLevel := "LOW", complianceStatus := "COMPLIANT",
      totalAmount := 0, flaggedTransactionCount := 0 }
  else
    let o := calculateOverallRisk (riskFactorScores rs c)
      (constraintViolationCount rs c)
    { overallScore := o.overallScore,
      riskLevel := o.riskLevel,
      complianceStatus :=
        if constraintViolationCount rs c ≠ 0 then "NON_COMPLIANT"
        else "COMPLIANT",
      totalAmount := if (riskAmounts rs).isEmpty then 0 else (riskAmounts rs).sum,
      flaggedTransactionCount :=
        (rs.filter (fun r => c.highValueThreshold < r.amount)).length }

/-- A payment of 20000 used for concrete evaluations. -/
def samplePay : ApiPayment := { paymentId := "pay1", amount := 20000 }

/-- A stored one-payment proposal used for concrete evaluations. -/
def sampleProposal : StoredProposal :=
  { status := "PENDING_PAYMENT_APPROVAL", totalRecords := 1,
    payments := [samplePay],
    paymentExecution := none }

/-- A server state holding `sampleProposal` under id p1, nothing executed. -/
def sampleState : ServerState :=
  { proposals := [("p1", sampleProposal)], executions := [] }

/-- A full-approval request for proposal p1. -/
def approveAllReq : ApprovalRequest :=
  { proposalId := some "p1", approvalDecision := "approve_all",
    approvedPayments := [] }

/-- A full-rejection request for proposal p1. -/
def rejectAllReq : ApprovalRequest :=
  { proposalId := some "p1", approvalDecision := "reject_all",
    approvedPayments := [] }

/-- The execution result the endpoint computes for a full approval of the
sample proposal: one record gives 10000 of simulated funds, so the stored
remaining balance is 10000 - 20000 = -10000. -/
def sampleExecApprove : ApiExecutionResult :=
  { executionStatus := "SUCCESS", approvalDecision := "approve_all",
    executedPayments := [samplePay], failedPayments := [],
    totalExecutedAmount := 20000, remainingBalance := -10000 }

/-- The server state after the first (approve_all) call on `sampleState`. -/
def sampleStateExecuted : ServerState :=
  { proposals :=
      [("p1", { status := "PAYMENT_EXECUTED", totalRecords := 1,
                payments := [samplePay],
                paymentExecution := some sampleExecApprove })],
    executions := [("p1", sampleExecApprove)] }

/-- The execution result the endpoint computes for a later full rejection
of the sample proposal. -/
def sampleExecReject : ApiExecutionResult :=
  { executionStatus := "FAILURE", approvalDecision := "reject_all",
    executedPayments := [], failedPayments := [samplePay],
    totalExecutedAmount := 0, remainingBalance := 10000 }

/-! ## Payment Formatter Tool (`payment_formatter_tool.py`)

The formatter reads the risk report JSON through `.get` with defaults, so
its risk input is independent of the risk tool embedding: a level string
(defaulting to MEDIUM upstream), the flagged transaction ids, and the
number of constraint violations. -/

structure FmtRiskInput where
  riskLevel : String
  flaggedIds : List String
  violationCount : ℕ
deriving DecidableEq, Repr

/-- The user constraints the formatter reads; both are fetched with
defaults (100000 and 500000) when absent. -/
structure FmtConstraints where
  autoApprovalLimit : Option ℚ
  escalationThreshold : Option ℚ
deriving DecidableEq, Repr

/-- The transaction id each tool rebuilds from sheet name and row. -/
def transactionIdOf (r : FinRecord) : String :=
  r.sheetName ++ "_row_" ++ toString r.rowNumber

/-- One entry of `individual_payments`, restricted to the fields the later
claims read. -/
structure FmtPayment where
  transactionId : String
  amount : ℚ
  currency : String
  priority : String
  isFlagged : Bool
deriving DecidableEq, Repr

/-- `_process_payments` for one record (lines 114-159): the stored amount
is rounded, the priority is HIGH above 50000 (on the raw amount), else
REVIEW_REQUIRED when flagged, else NORMAL. -/
def mkPayment (flaggedIds : List String) (r : FinRecord) : FmtPayment :=
  { transactionId := transactionIdOf r,
    amount := formatCurrency r.amount,
    currency := r.currency.getD "USD",
    priority :=
      if 50000 < r.amount then "HIGH"
      else if transactionIdOf r ∈ flaggedIds then "REVIEW_REQUIRED"
      else "NORMAL",
    isFlagged := decide (transactionIdOf r ∈ flaggedIds) }

/-- The grouping key `f"{currency}_{priority}"` of `_create_payment_batches`. -/
def batchKeyOf (p : FmtPayment) : String := p.currency ++ "_" ++ p.priority

/-- One payment batch with the fields the claims read. -/
structure FmtBatch where
  currency : String
  priority : String
  totalAmount : ℚ
  paymentCount : ℕ
  requiresReview : Bool
deriving DecidableEq, Repr

/-- The batch accumulated for one key by `_create_payment_batches`
(lines 161-191): currency and priority come from the first payment filed
under the key, totals accumulate over the group. -/
def mkBatch (ps : List FmtPayment) (k : String) : FmtBatch :=
  let grp := ps.filter (fun p => batchKeyOf p = k)
  { currency := ((grp.head?).map (fun p => p.currency)).getD "",
    priority := ((grp.head?).map (fun p => p.priority)).getD "",
    totalAmount := (grp.map (fun p => p.amount)).sum,
    paymentCount := grp.length,
    requiresReview :=
      grp.any (fun p => p.isFlagged || p.priority = "REVIEW_REQUIRED") }

/-- The batch dict of `_create_payment_batches`, one batch per distinct
key.  (Python iterates keys in dict insertion order; the development never
depends on the pre-sort order of this list.) -/
def groupBatches (ps : List FmtPayment) : List FmtBatch :=
  ((ps.map batchKeyOf).dedup).map (mkBatch ps)

/-- `priority_order.get(priority, 3)` of line 194. -/
def priorityRank (p : String) : ℕ :=
  if p = "HIGH" then 0
  else if p = "REVIEW_REQUIRED" then 1
  else if p = "NORMAL" then 2
  else 3

/-- The sort key `(priority_order, -total_amount)` of line 197 as a
boolean order. -/
def batchLE (b1 b2 : FmtBatch) : Bool :=
  priorityRank b1.priority < priorityRank b2.priority
  ∨ (priorityRank b1.priority = priorityRank b2.priority
     ∧ b2.totalAmount ≤ b1.totalAmount)

/-- The sorted batch list of lines 195-198. -/
def sortBatches (bs : List FmtBatch) : List FmtBatch :=
  bs.mergeSort batchLE

/-- The `approval_requirements` dict (initialized at lines 72-77, filled by
`_determine_approval_requirements`, lines 202-233). -/
structure ApprovalReqs where
  requiresManualReview : Bool
  requiredApprovers : ℕ
  hasApprovalDeadline : Bool
  escalationRequired : Bool
deriving DecidableEq, Repr

/-- `_determine_approval_requirements` of the formatter: manual review for
HIGH/CRITICAL risk (which alone sets 2 approvers), or total above the auto
approval limit, or any flagged or violating record; escalation (3
approvers) for CRITICAL risk or total above the escalation threshold; a
deadline exactly when manual review is required. -/
def determineApprovalRequirements (payments : List FmtPayment)
    (risk : FmtRiskInput) (c : FmtConstraints) : ApprovalReqs :=
  let total := (payments.map (fun p => p.amount)).sum
  let manualFromRisk : Bool :=
    risk.riskLevel = "HIGH" ∨ risk.riskLevel = "CRITICAL"
  let manual : Bool :=
    manualFromRisk ∨ c.autoApprovalLimit.getD 100000 < total
    ∨ 0 < risk.flaggedIds.length ∨ 0 < risk.violationCount
  let esc : Bool :=
    risk.riskLevel = "CRITICAL" ∨ c.escalationThreshold.getD 500000 < total
  { requiresManualReview := manual,
    requiredApprovers := if esc then 3 else if manualFromRisk then 2 else 1,
    hasApprovalDeadline := manual,
    escalationRequired := esc }

/-- The payment proposal with the fields the claims read. -/
structure Proposal where
  status : String
  summaryTotalPayments : ℕ
  summaryTotalAmount : ℚ
  individualPayments : List FmtPayment
  paymentBatches : List FmtBatch
  requiresManualReview : Bool
  requiredApprovers : ℕ
  hasApprovalDeadline : Bool
  escalationRequired : Bool
deriving DecidableEq, Repr

/-- `PaymentFormatterTool._run` (lines 29-99): an empty normalized record
list short-circuits to NO_PAYMENTS_REQUIRED with the initial summary,
otherwise payments, batches, approval requirements and the rounded summary
total are computed. -/
def runFormatter (rs : List FinRecord) (risk : FmtRiskInput)
    (c : FmtConstraints) : Proposal :=
  if rs.isEmpty then
    { status := "NO_PAYMENTS_REQUIRED",
      summaryTotalPayments := rs.length,
      summaryTotalAmount := 0,
      individualPayments := [],
      paymentBatches := [],
      requiresManualReview := false,
      requiredApprovers := 1,
      hasApprovalDeadline := false,
      escalationRequired := false }
  else
    let payments := rs.map (mkPayment risk.flaggedIds)
    let a := determineApprovalRequirements payments risk c
    { status := "PENDING_APPROVAL",
      summaryTotalPayments := payments.length,
      summaryTotalAmount :=
        formatCurrency ((payments.map (fun p => p.amount)).sum),
      individualPayments := payments,
      paymentBatches := sortBatches (groupBatches payments),
      requiresManualReview := a.requiresManualReview,
      requiredApprovers := a.requiredApprovers,
      hasApprovalDeadline := a.hasApprovalDeadline,
      escalationRequired := a.escalationRequired }

/-! ## HITL Interface Tool (`hitl_interface_tool.py`)

`_determine_approval_requirements` (lines 235-263) recomputes the required
approval count from the proposal summary; only the listed fields are
read. -/

/-- The HITL required approval count: starting from 1, the payment path
sets 2 for HIGH/CRITICAL risk or total above 100000, else 2 above 50000;
the investment path maps approval level HIGH to 2 and MEDIUM to 1; an
escalation-required proposal raises the count to max(current, 3). -/
def hitlRequiredApprovals (checkpointType : String) (riskLevel : String)
    (totalAmount : ℚ) (approvalLevel : String)
    (escalationRequired : Bool) : ℕ :=
  let base : ℕ :=
    if checkpointType = "payment_approval" then
      (if (riskLevel = "HIGH" ∨ riskLevel = "CRITICAL")
          ∨ 100000 < totalAmount then 2
       else if 50000 < totalAmount then 2
       else 1)
    else if checkpointType = "investment_approval" then
      (if approvalLevel = "HIGH" then 2
       else if approvalLevel = "MEDIUM" then 1
       else 1)
    else 1
  if escalationRequired then max base 3 else base

/-- Written from the wording of the spec (sections 4.2-4.3): 3 approvers
exactly when escalation fires (CRITICAL risk or total above the escalation
threshold), else 2 exactly for HIGH or CRITICAL risk, else 1.  Used to
compare the two code paths against the claimed common rule. -/
def specRequiredApprovers (riskLevel : String)
    (totalAmount escalationThreshold : ℚ) : ℕ :=
  if riskLevel = "CRITICAL" ∨ escalationThreshold < totalAmount then 3
  else if riskLevel = "HIGH" ∨ riskLevel = "CRITICAL" then 2
  else 1

/-! ## Investment Analyzer Tool (`investment_analyzer_tool.py`) -/

/-- The `custom_allocations` dict of the user preferences; an absent key
falls back to the risk-profile percentage. -/
structure CustomAllocations where
  fiatPercentage : Option ℚ
  cryptoPercentage : Option ℚ
  liquidityPercentage : Option ℚ
deriving DecidableEq, Repr

/-- The user investment preferences `_run` reads; every key is fetched
with a default (risk tolerance moderate, reserve fraction 0.10, minimum
reserve 1000, custom allocations empty). -/
structure InvestPreferences where
  riskTolerance : Option String
  emergencyReservePercentage : Option ℚ
  minimumEmergencyReserve : Option ℚ
  customAllocations : CustomAllocations
deriving DecidableEq, Repr

/-- One row of the fixed risk-profile table (lines 142-161). -/
structure RiskProfile where
  fiatAllocation : ℚ
  cryptoAllocation : ℚ
  liquidityAllocation : ℚ
  riskLevel : String
deriving DecidableEq, Repr

/-- `_determine_risk_profile` (lines 138-167): the lowercased tolerance
selects a table row, anything unknown falls back to moderate. -/
def riskProfileOf (tol : Option String) : RiskProfile :=
  let k := (tol.getD "moderate").toLower
  if k = "conservative" then
    { fiatAllocation := 7/10, cryptoAllocation := 1/10,
      liquidityAllocation := 1/5, riskLevel := "LOW" }
  else if k = "aggressive" then
    { fiatAllocation := 3/10, cryptoAllocation := 1/2,
      liquidityAllocation := 1/5, riskLevel := "HIGH" }
  else
    { fiatAllocation := 1/2, cryptoAllocation := 3/10,
      liquidityAllocation := 1/5, riskLevel := "MODERATE" }

/-- A triple of category percentages. -/
structure Percentages where
  fiat : ℚ
  crypto : ℚ
  liquidity : ℚ
deriving DecidableEq, Repr

/-- The pre-normalization percentages of `_allocate_funds` (lines 175-179):
profile values overridden by any caller-supplied custom percentages. -/
def rawPercentages (prefs : InvestPreferences) : Percentages :=
  let pr := riskProfileOf prefs.riskTolerance
  { fiat := prefs.customAllocations.fiatPercentage.getD pr.fiatAllocation,
    crypto := prefs.customAllocations.cryptoPercentage.getD pr.cryptoAllocation,
    liquidity :=
      prefs.customAllocations.liquidityPercentage.getD pr.liquidityAllocation }

/-- The normalization step of `_allocate_funds` (lines 181-186): divide by
the total only when the total is positive, otherwise keep the raw values
unchanged. -/
def normalizedPercentages (prefs : InvestPreferences) : Percentages :=
  let p := rawPercentages prefs
  if 0 < p.fiat + p.crypto + p.liquidity then
    { fiat := p.fiat / (p.fiat + p.crypto + p.liquidity),
      crypto := p.crypto / (p.fiat + p.crypto + p.liquidity),
      liquidity := p.liquidity / (p.fiat + p.crypto + p.liquidity) }
  else p

/-- `_calculate_emergency_reserve` (lines 124-136): the larger of the
percentage-based reserve and the minimum, capped at 30 percent of funds. -/
def emergencyReserveOf (funds : ℚ) (prefs : InvestPreferences) : ℚ :=
  min (max (funds * prefs.emergencyReservePercentage.getD (1/10))
        (prefs.minimumEmergencyReserve.getD 1000))
      (funds * (3/10))

/-- One `investment_categories` entry: rounded allocation and the reported
percentage `round(p * 100, 1)`. -/
structure CategoryAlloc where
  allocation : ℚ
  percentage : ℚ
deriving DecidableEq, Repr

/-- One recommended investment product, with the fields the claims read
(ids and display strings are omitted). -/
structure InvestmentRec where
  category : String
  investmentType : String
  allocation : ℚ
  riskLevel : String
  liquidity : String
  minimumInvestment : ℚ
  executionPriority : ℕ
deriving DecidableEq, Repr

/-- `_get_fiat_investment_options` (lines 232-276). -/
def fiatInvestmentOptions (amount : ℚ) : List InvestmentRec :=
  if 1000 ≤ amount then
    [{ category := "fiat_savings",
       investmentType := "High-Yield Savings Account",
       allocation := formatCurrency (amount * (3/5)), riskLevel := "LOW",
       liquidity := "HIGH", minimumInvestment := 1000, executionPriority := 1 },
     { category := "fiat_savings",
       investmentType := "Treasury Bills (T-Bills)",
       allocation := formatCurrency (amount * (2/5)), riskLevel := "VERY_LOW",
       liquidity := "MEDIUM", minimumInvestment := 100, executionPriority := 2 }]
  else
    [{ category := "fiat_savings",
       investmentType := "Money Market Account",
       allocation := formatCurrency amount, riskLevel := "LOW",
       liquidity := "HIGH", minimumInvestment := 100, executionPriority := 1 }]

/-- `_get_crypto_investment_options` (lines 278-335). -/
def cryptoInvestmentOptions (amount : ℚ) : List InvestmentRec :=
  if 500 ≤ amount then
    [{ category := "crypto_defi", investmentType := "Bitcoin (BTC)",
       allocation := formatCurrency (amount * (2/5)), riskLevel := "HIGH",
       liquidity := "HIGH", minimumInvestment := 10, executionPriority := 1 },
     { category := "crypto_defi", investmentType := "Ethereum (ETH)",
       allocation := formatCurrency (amount * (3/10)), riskLevel := "HIGH",
       liquidity := "HIGH", minimumInvestment := 10, executionPriority := 2 },
     { category := "crypto_defi",
       investmentType := "Stablecoin Yield Farming",
       allocation := formatCurrency (amount * (3/10)), riskLevel := "MEDIUM",
       liquidity := "MEDIUM", minimumInvestment := 100, executionPriority := 3 }]
  else
    [{ category := "crypto_defi",
       investmentType := "Diversified Crypto Index",
       allocation := formatCurrency amount, riskLevel := "MEDIUM_HIGH",
       liquidity := "HIGH", minimumInvestment := 25, executionPriority := 1 }]

/-- `_get_liquidity_investment_options` (lines 337-367). -/
def liquidityInvestmentOptions (amount : ℚ) : List InvestmentRec :=
  [{ category := "liquidity_products", investmentType := "Short-term CDs",
     allocation := formatCurrency (amount * (1/2)), riskLevel := "LOW",
     liquidity := "LOW", minimumInvestment := 500, executionPriority := 1 },
   { category := "liquidity_products", investmentType := "Money Market Funds",
     allocation := formatCurrency (amount * (1/2)), riskLevel := "LOW",
     liquidity := "HIGH", minimumInvestment := 100, executionPriority := 2 }]

/-- `_generate_investment_recommendations` (lines 207-230): each category
with a positive rounded allocation contributes its option list. -/
def generateInvestmentRecommendations (fiatAmt cryptoAmt liqAmt : ℚ) :
    List InvestmentRec :=
  (if 0 < fiatAmt then fiatInvestmentOptions fiatAmt else [])
  ++ (if 0 < cryptoAmt then cryptoInvestmentOptions cryptoAmt else [])
  ++ (if 0 < liqAmt then liquidityInvestmentOptions liqAmt else [])

/-- `_determine_approval_requirements` of the investment tool
(lines 397-415). -/
def investmentApprovalLevel (total : ℚ) (risk : String) : String :=
  if 100000 < total ∨ risk = "HIGH" then "HIGH"
  else if 50000 < total then "MEDIUM"
  else "STANDARD"

/-- The investment plan with the fields the claims read. -/
structure InvestmentPlan where
  status : String
  availableFunds : ℚ
  emergencyReserve : ℚ
  totalAllocated : ℚ
  fiatSavings : CategoryAlloc
  cryptoDefi : CategoryAlloc
  liquidityProducts : CategoryAlloc
  recommendedInvestments : List InvestmentRec
  overallRiskLevel : String
  minimumApprovalLevel : String
  requiresReview : Bool
  hasApprovalDeadline : Bool
deriving DecidableEq, Repr

/-- `InvestmentAnalyzerTool._run` (lines 32-112): non-positive available
funds short-circuit to NO_FUNDS_AVAILABLE with the plan still holding all
its initial values; otherwise reserve, normalized allocation,
recommendations and approval level are computed. -/
def runInvestmentAnalyzer (funds : ℚ) (prefs : InvestPreferences) :
    InvestmentPlan :=
  if funds ≤ 0 then
    { status := "NO_FUNDS_AVAILABLE",
      availableFunds := formatCurrency funds,
      emergencyReserve := 0,
      totalAllocated := 0,
      fiatSavings := { allocation := 0, percentage := 0 },
      cryptoDefi := { allocation := 0, percentage := 0 },
      liquidityProducts := { allocation := 0, percentage := 0 },
      recommendedInvestments := [],
      overallRiskLevel := "MODERATE",
      minimumApprovalLevel := "STANDARD",
      requiresReview := true,
      hasApprovalDeadline := false }
  else
    let reserve := emergencyReserveOf funds prefs
    let investable := funds - reserve
    let profile := riskProfileOf prefs.riskTolerance
    let p := normalizedPercentages prefs
    let fiatAlloc := formatCurrency (investable * p.fiat)
    let cryptoAlloc := formatCurrency (investable * p.crypto)
    let liqAlloc := formatCurrency (investable * p.liquidity)
    { status := "PENDING_APPROVAL",
      availableFunds := formatCurrency funds,
      emergencyReserve := formatCurrency reserve,
      totalAllocated := formatCurrency investable,
      fiatSavings :=
        { allocation := fiatAlloc, percentage := pyRound1 (p.fiat * 100) },
      cryptoDefi :=
        { allocation := cryptoAlloc, percentage := pyRound1 (p.crypto * 100) },
      liquidityProducts :=
        { allocation := liqAlloc, percentage := pyRound1 (p.liquidity * 100) },
      recommendedInvestments :=
        generateInvestmentRecommendations fiatAlloc cryptoAlloc liqAlloc,
      overallRiskLevel := profile.riskLevel,
      minimumApprovalLevel :=
        investmentApprovalLevel (formatCurrency investable) profile.riskLevel,
      requiresReview := true,
      hasApprovalDeadline := true }

/-- Preferences whose custom allocations are all zero. -/
def zeroCustomPrefs : InvestPreferences :=
  { riskTolerance := some "moderate",
    emergencyReservePercentage := none,
    minimumEmergencyReserve := none,
    customAllocations :=
      { fiatPercentage := some 0, cryptoPercentage := some 0,
        liquidityPercentage := some 0 } }

/-- Preferences whose custom allocations spell out the moderate profile. -/
def moderateCustomPrefs : InvestPreferences :=
  { riskTolerance := none,
    emergencyReservePercentage := none,
    minimumEmergencyReserve := none,
    customAllocations :=
      { fiatPercentage := some (1/2), cryptoPercentage := some (3/10),
        liquidityPercentage := some (1/5) } }

/-- A fully populated record that raises no risk factor. -/
def sampleRecord : FinRecord :=
  { amount := 100, recipient := some "Alice", description := some "rent",
    date := some "2024-01-01", currency := some "USD",
    sheetName := "S1", rowNumber := 1 }

/-- Constraints with no optional limits and the default threshold. -/
def sampleConstraints : RiskConstraints :=
  { minimumBalance := 0, transactionLimit := none, dailyLimit := none,
    highValueThreshold := 100000 }

/-- Looking up the key just set returns the new value. -/
theorem lookup_setKey {α : Type} (l : List (String × α)) (k : String) (v : α) :
    (setKey l k v).lookup k = some v := by
  induction l with
  | nil => simp [setKey, List.lookup]
  | cons hd tl ih =>
    by_cases h : hd.1 = k
    · simp [setKey, h, List.lookup]
    · have h2 : (k == hd.1) = false := by
        simp [beq_eq_false_iff_ne]
        exact fun e => h e.symm
      simp [setKey, h, List.lookup, h2, ih]

/-- Evaluation of the first (approve_all) call on the sample state. -/
theorem first_call_eval :
    submitPaymentApproval sampleState approveAllReq
      = ({ success := true, httpStatus := 200, executionStatus := some "SUCCESS" },
         sampleStateExecuted) := by
  simp [submitPaymentApproval, computeExecution, sampleState, sampleProposal,
    approveAllReq, setKey, samplePay, sampleExecApprove, sampleStateExecuted,
    List.lookup]
  norm_num

/-- Evaluation of a second (reject_all) call on the already-executed
state: the endpoint succeeds again and overwrites the stored result. -/
theorem second_call_eval :
    submitPaymentApproval sampleStateExecuted rejectAllReq
      = ({ success := true, httpStatus := 200, executionStatus := some "FAILURE" },
         { proposals :=
             [("p1", { status := "PAYMENT_EXECUTED", totalRecords := 1,
                       payments := [samplePay],
                       paymentExecution := some sampleExecReject })],
           executions := [("p1", sampleExecReject)] }) := by
  simp [submitPaymentApproval, computeExecution, sampleStateExecuted,
    sampleExecApprove, rejectAllReq, setKey, samplePay, sampleExecReject,
    List.lookup]

/-- C1 counterexample: after a first `submit_payment_approval` call has
stored an execution result for proposal p1, a second call on the same
proposal id does not fail — it returns success (the endpoint raises no
`AlreadyExecutedError`; no such error exists in the repository) and the
stored execution result changes. -/
theorem second_submit_payment_approval_succeeds_and_overwrites :
    (submitPaymentApproval (submitPaymentApproval sampleState approveAllReq).2
        rejectAllReq).1.success = true
    ∧ (submitPaymentApproval (submitPaymentApproval sampleState approveAllReq).2
        rejectAllReq).2.executions.lookup "p1"
      ≠ (submitPaymentApproval sampleState approveAllReq).2.executions.lookup "p1" := by
  rw [first_call_eval]
  show (submitPaymentApproval sampleStateExecuted rejectAllReq).1.success = true
    ∧ (submitPaymentApproval sampleStateExecuted rejectAllReq).2.executions.lookup "p1"
      ≠ sampleStateExecuted.executions.lookup "p1"
  rw [second_call_eval]
  constructor
  · trivial
  · simp only [sampleStateExecuted, List.lookup]
    simp [sampleExecReject, sampleExecApprove]

/-- C1 (amended): a second `submit_payment_approval` on a proposal whose
execution result is already stored is accepted, not rejected: the endpoint
recomputes the execution result from the stored proposal and the new
decision and overwrites the stored `ExecutionResult`; it never raises
`AlreadyExecutedError`. -/
theorem second_submit_payment_approval_recomputes
    (s : ServerState) (pid : String) (prop : StoredProposal)
    (req : ApprovalRequest) (old : ApiExecutionResult)
    (hpid : req.proposalId = some pid) (hne : pid ≠ "")
    (hdec : req.approvalDecision ∈ ["approve_all", "reject_all", "partial"])
    (hprop : s.proposals.lookup pid = some prop)
    (_hexec : s.executions.lookup pid = some old) :
    (submitPaymentApproval s req).1.success = true
    ∧ (submitPaymentApproval s req).2.executions.lookup pid
        = some (computeExecution prop req.approvalDecision req.approvedPayments) := by
  have h1 : req.proposalId.getD "" = pid := by rw [hpid]; rfl
  have hc : ¬ (pid = ""
      ∨ req.approvalDecision ∉ ["approve_all", "reject_all", "partial"]) := by
    rintro (h | h)
    · exact hne h
    · exact h hdec
  simp only [submitPaymentApproval, h1, hprop, if_neg hc]
  exact ⟨trivial, lookup_setKey _ _ _⟩

/-- Witness for the amended C1 theorem at the concrete already-executed
state. -/
theorem second_submit_payment_approval_recomputes_witness :
    (submitPaymentApproval sampleStateExecuted rejectAllReq).1.success = true
    ∧ (submitPaymentApproval sampleStateExecuted rejectAllReq).2.executions.lookup "p1"
      = some (computeExecution
          { status := "PAYMENT_EXECUTED", totalRecords := 1,
            payments := [samplePay],
            paymentExecution := some sampleExecApprove }
          "reject_all" []) :=
  second_submit_payment_approval_recomputes sampleStateExecuted "p1" _
    rejectAllReq sampleExecApprove rfl (by decide) (by decide)
    (by simp [sampleStateExecuted, List.lookup])
    (by simp [sampleStateExecuted, List.lookup])

/-- C2 counterexample: the execution result stored by
`submit_payment_approval` for the sample one-record, one-20000-payment
proposal has remaining balance 1 * 10000 - 20000 = -10000, which is
negative and not the claimed clamped value. -/
theorem api_remaining_balance_can_be_negative :
    ((submitPaymentApproval sampleState approveAllReq).2.executions.lookup
        "p1").map (fun e => e.remainingBalance) = some (-10000)
    ∧ ¬ (0 : ℚ) ≤ -10000 := by
  rw [first_call_eval]
  constructor
  · simp [sampleStateExecuted, List.lookup, sampleExecApprove]
  · norm_num

/-- C2 (amended): the `PaymentExecutorTool` execution result satisfies
remainingBalance = max 0 (initialBalance - totalProcessed - totalFees), so
it is never negative; but the API server path computes the stored remaining
balance as totalRecords * 10000 - totalExecutedAmount, with no fee term and
no clamping, so that path can go negative. -/
theorem remaining_balance_clamped_in_executor_not_in_api
    (rate init : ℚ) (w : String) (pays : List ExecPayment)
    (prop : StoredProposal) (d : String) (ids : List String) :
    executorRun rate "approved" (some w) init pays
      = .completed (executeApproved rate init pays)
    ∧ (executeApproved rate init pays).balanceInfo.remainingBalance
        = max 0 (init
            - (executeApproved rate init pays).summary.totalAmountProcessed
            - (executeApproved rate init pays).summary.processingFees)
    ∧ 0 ≤ (executeApproved rate init pays).balanceInfo.remainingBalance
    ∧ (computeExecution prop d ids).remainingBalance
        = (prop.totalRecords : ℚ) * 10000
            - (computeExecution prop d ids).totalExecutedAmount :=
  ⟨rfl, rfl, le_max_left 0 _, rfl⟩

/-- C9: in every executor run on an approved proposal, the summary
processing fees equal the fee rate times the total processed amount, that
total sums exactly the payments whose transfer succeeded, each per-item
result (also of failed payments) carries fee = amount * rate, and the
remaining balance depends only on the successful total — a failed payment
contributes neither its amount nor its fee. -/
theorem processing_fees_only_from_successful_payments
    (rate init : ℚ) (w : String) (pays : List ExecPayment) :
    executorRun rate "approved" (some w) init pays
      = .completed (executeApproved rate init pays)
    ∧ (executeApproved rate init pays).summary.processingFees
        = rate * (executeApproved rate init pays).summary.totalAmountProcessed
    ∧ (executeApproved rate init pays).summary.totalAmountProcessed
        = ((pays.filter (·.ok)).map (·.amount)).sum
    ∧ (executeApproved rate init pays).paymentsProcessed.map
        (fun p => p.processingFee) = pays.map (fun p => p.amount * rate)
    ∧ (executeApproved rate init pays).balanceInfo.remainingBalance
        = max 0 (init - successTotal pays - successTotal pays * rate) := by
  refine ⟨rfl, mul_comm _ _, rfl, ?_, rfl⟩
  rw [show (executeApproved rate init pays).paymentsProcessed
      = pays.map (fun p =>
          { amount := p.amount, ok := p.ok,
            processingFee := p.amount * rate : ExecPaymentResult }) from rfl,
    List.map_map]
  rfl

/-- Membership in an if-guarded singleton list with a nonnegative payload
gives a nonnegative element. -/
theorem nonneg_of_mem_iteSingleton {x a : ℚ} {p : Prop} [Decidable p]
    (ha : 0 ≤ a) (hx : x ∈ (if p then [a] else [])) : 0 ≤ x := by
  split at hx <;> simp_all

/-- Every amount risk factor score is nonnegative. -/
theorem amountRiskScores_nonneg (rs : List FinRecord) (c : RiskConstraints) :
    ∀ x ∈ amountRiskScores rs c, 0 ≤ x := by
  intro x hx
  simp only [amountRiskScores] at hx
  split at hx
  · simp at hx
  · rcases List.mem_append.mp hx with hx | hx
    · refine nonneg_of_mem_iteSingleton ?_ hx
      exact le_min (by norm_num) (by positivity)
    · exact nonneg_of_mem_iteSingleton (by norm_num) hx

/-- Every pattern risk factor score is nonnegative. -/
theorem patternRiskScores_nonneg (rs : List FinRecord) :
    ∀ x ∈ patternRiskScores rs, 0 ≤ x := by
  intro x hx
  simp only [patternRiskScores] at hx
  rcases List.mem_append.mp hx with hx | hx
  · exact nonneg_of_mem_iteSingleton (by norm_num) hx
  · exact nonneg_of_mem_iteSingleton (by norm_num) hx

/-- Every compliance risk factor score is nonnegative. -/
theorem complianceRiskScores_nonneg (rs : List FinRecord) :
    ∀ x ∈ complianceRiskScores rs, 0 ≤ x := by
  intro x hx
  simp only [complianceRiskScores] at hx
  rcases List.mem_append.mp hx with hx | hx
  · refine nonneg_of_mem_iteSingleton ?_ hx
    split <;> norm_num
  · exact nonneg_of_mem_iteSingleton (by norm_num) hx

/-- The summed factor scores are nonnegative. -/
theorem riskFactorScores_sum_nonneg (rs : List FinRecord) (c : RiskConstraints) :
    0 ≤ (riskFactorScores rs c).sum := by
  refine List.sum_nonneg ?_
  intro x hx
  rcases List.mem_append.mp hx with hx | hx
  · rcases List.mem_append.mp hx with hx | hx
    · exact amountRiskScores_nonneg rs c x hx
    · exact patternRiskScores_nonneg rs x hx
  · exact complianceRiskScores_nonneg rs x hx

/-- The conditional violation term of `_calculate_overall_risk` is the
same as the unconditional product. -/
theorem violation_term_eq (rs : List FinRecord) (c : RiskConstraints) :
    (riskFactorScores rs c).sum
      + (if constraintViolationCount rs c ≠ 0 then
          (constraintViolationCount rs c : ℚ) * 2 else 0)
      = totalRiskScore rs c := by
  by_cases hv : constraintViolationCount rs c = 0 <;> simp [totalRiskScore, hv]

/-- C3: for every non-empty record set and any constraints, the report
level is determined from the summed pre-clamp risk score by the thresholds
below 2 LOW, [2,4) MEDIUM, [4,7) HIGH, at least 7 CRITICAL, and the
overall score is that sum clamped into [0,10]. -/
theorem risk_level_from_preclamp_score (rs : List FinRecord)
    (c : RiskConstraints) (h : rs ≠ []) :
    (runRiskAssessment rs c).riskLevel
      = (if 7 ≤ totalRiskScore rs c then "CRITICAL"
         else if 4 ≤ totalRiskScore rs c then "HIGH"
         else if 2 ≤ totalRiskScore rs c then "MEDIUM"
         else "LOW")
    ∧ (runRiskAssessment rs c).overallScore = min 10 (totalRiskScore rs c)
    ∧ 0 ≤ (runRiskAssessment rs c).overallScore
    ∧ (runRiskAssessment rs c).overallScore ≤ 10 := by
  have he : rs.isEmpty = false := by
    cases rs with
    | nil => exact absurd rfl h
    | cons a l => rfl
  have h0 : 0 ≤ totalRiskScore rs c := by
    rw [← violation_term_eq rs c]
    refine add_nonneg (riskFactorScores_sum_nonneg rs c) ?_
    split <;> positivity
  have hscore : (runRiskAssessment rs c).overallScore
      = min 10 (totalRiskScore rs c) := by
    simp only [runRiskAssessment, he, Bool.false_eq_true, if_false,
      calculateOverallRisk, violation_term_eq rs c]
  refine ⟨?_, hscore, ?_, ?_⟩
  · simp only [runRiskAssessment, he, Bool.false_eq_true, if_false,
      calculateOverallRisk, violation_term_eq rs c]
  · rw [hscore]
    exact le_min (by norm_num) h0
  · rw [hscore]
    exact min_le_left 10 (totalRiskScore rs c)

/-- Witness for the C3 theorem on a concrete one-record set. -/
theorem risk_level_from_preclamp_score_witness :
    (runRiskAssessment [sampleRecord] sampleConstraints).riskLevel
      = (if 7 ≤ totalRiskScore [sampleRecord] sampleConstraints then "CRITICAL"
         else if 4 ≤ totalRiskScore [sampleRecord] sampleConstraints then "HIGH"
         else if 2 ≤ totalRiskScore [sampleRecord] sampleConstraints then "MEDIUM"
         else "LOW")
    ∧ (runRiskAssessment [sampleRecord] sampleConstraints).overallScore
        = min 10 (totalRiskScore [sampleRecord] sampleConstraints)
    ∧ 0 ≤ (runRiskAssessment [sampleRecord] sampleConstraints).overallScore
    ∧ (runRiskAssessment [sampleRecord] sampleConstraints).overallScore ≤ 10 :=
  risk_level_from_preclamp_score [sampleRecord] sampleConstraints (by simp)

/-- The sum of the amount risk scores in closed form. -/
theorem amountRiskScores_sum (rs : List FinRecord) (c : RiskConstraints) :
    (amountRiskScores rs c).sum
      = (if (riskAmounts rs).isEmpty then 0
         else min 3 ((highValueCount rs c : ℚ) * (1/2))
           + (if c.dailyLimit.getD 1000000 < (riskAmounts rs).sum
              then (4:ℚ) else 0)) := by
  simp only [amountRiskScores]
  split
  · simp
  · rw [List.sum_append]
    congr 1
    · by_cases h0 : 0 < highValueCount rs c
      · simp [h0]
      · have hz : highValueCount rs c = 0 := by omega
        simp [h0, hz]
    · split <;> simp

/-- Lowering the high-value threshold can only add high-value records. -/
theorem highValueCount_antitone (rs : List FinRecord) (c : RiskConstraints)
    (t1 t2 : ℚ) (h : t1 ≤ t2) :
    highValueCount rs { c with highValueThreshold := t2 }
      ≤ highValueCount rs { c with highValueThreshold := t1 } := by
  simp only [highValueCount, ← List.countP_eq_length_filter]
  refine List.countP_mono_left ?_
  intro a _ ha
  simp only [decide_eq_true_eq] at ha ⊢
  exact lt_of_le_of_lt h ha

/-- C6: for a fixed record set and constraint set, lowering the high-value
threshold never decreases the overall risk score: t1 at most t2 implies the
score at t2 is at most the score at t1. -/
theorem overall_score_antitone_in_threshold (rs : List FinRecord)
    (c : RiskConstraints) (t1 t2 : ℚ) (h : t1 ≤ t2) :
    (runRiskAssessment rs { c with highValueThreshold := t2 }).overallScore
      ≤ (runRiskAssessment rs { c with highValueThreshold := t1 }).overallScore := by
  by_cases hre : rs.isEmpty
  · simp [runRiskAssessment, hre]
  · have hre2 : rs.isEmpty = false := by simpa using hre
    simp only [runRiskAssessment, hre2, Bool.false_eq_true, if_false,
      calculateOverallRisk]
    refine min_le_min le_rfl ?_
    refine add_le_add ?_ le_rfl
    simp only [riskFactorScores, List.sum_append]
    refine add_le_add (add_le_add ?_ le_rfl) le_rfl
    rw [amountRiskScores_sum, amountRiskScores_sum]
    split
    · exact le_rfl
    · refine add_le_add ?_ le_rfl
      refine min_le_min le_rfl ?_
      have hc := highValueCount_antitone rs c t1 t2 h
      have : ((highValueCount rs { c with highValueThreshold := t2 } : ℚ))
          ≤ (highValueCount rs { c with highValueThreshold := t1 } : ℚ) := by
        exact_mod_cast hc
      nlinarith

/-- Witness for the C6 theorem at concrete thresholds 1000 and 2000. -/
theorem overall_score_antitone_in_threshold_witness :
    (runRiskAssessment [sampleRecord]
        { sampleConstraints with highValueThreshold := 2000 }).overallScore
      ≤ (runRiskAssessment [sampleRecord]
        { sampleConstraints with highValueThreshold := 1000 }).overallScore :=
  overall_score_antitone_in_threshold [sampleRecord] sampleConstraints
    1000 2000 (by norm_num)

/-- Splitting a mapped sum along a boolean predicate. -/
theorem sum_map_filter_split {α : Type} (p : α → Bool) (f : α → ℚ)
    (l : List α) :
    ((l.filter p).map f).sum + ((l.filter (fun x => !(p x))).map f).sum
      = (l.map f).sum := by
  induction l with
  | nil => simp
  | cons a t ih =>
    rcases Bool.eq_false_or_eq_true (p a) with hp | hp <;>
      simp [List.filter_cons, hp] <;> linarith [ih]

/-- Summing group sums over a duplicate-free covering key list gives the
total sum. -/
theorem sum_map_filter_key {α : Type} (key : α → String) (f : α → ℚ) :
    ∀ (cs : List String) (l : List α), cs.Nodup →
      (∀ x ∈ l, key x ∈ cs) →
      (cs.map (fun k => ((l.filter (fun x => key x = k)).map f).sum)).sum
        = (l.map f).sum := by
  intro cs
  induction cs with
  | nil =>
    intro l _ hcov
    cases l with
    | nil => simp
    | cons a t => exact absurd (hcov a (by simp)) (by simp)
  | cons k ks ih =>
    intro l hnd hcov
    have hk : k ∉ ks := (List.nodup_cons.mp hnd).1
    have hfix : ∀ k2 ∈ ks,
        l.filter (fun x => key x = k2)
          = (l.filter (fun x => ¬ key x = k)).filter
              (fun x => key x = k2) := by
      intro k2 hk2
      rw [List.filter_filter]
      refine (List.filter_congr ?_).symm
      intro x _
      by_cases h : key x = k2
      · simp only [h, decide_True, Bool.true_and, decide_eq_true_eq]
        have : ¬ (k2 = k) := fun e => hk (e ▸ hk2)
        simp [this]
      · simp [h]
    have hcov2 : ∀ x ∈ l.filter (fun x => ¬ key x = k), key x ∈ ks := by
      intro x hx
      have hm := List.mem_filter.mp hx
      have := hcov x hm.1
      simp only [List.mem_cons] at this
      rcases this with h | h
      · exact absurd h (by simpa using hm.2)
      · exact h
    have hrec := ih (l.filter (fun x => ¬ key x = k))
      (List.nodup_cons.mp hnd).2 hcov2
    calc ((k :: ks).map
        (fun k2 => ((l.filter (fun x => key x = k2)).map f).sum)).sum
        = ((l.filter (fun x => key x = k)).map f).sum
          + (ks.map
              (fun k2 => ((l.filter (fun x => key x = k2)).map f).sum)).sum := by
          simp
      _ = ((l.filter (fun x => key x = k)).map f).sum
          + (ks.map (fun k2 =>
              (((l.filter (fun x => ¬ key x = k)).filter
                  (fun x => key x = k2)).map f).sum)).sum := by
          congr 1
          refine congrArg List.sum (List.map_congr_left ?_)
          intro k2 hk2
          rw [hfix k2 hk2]
      _ = ((l.filter (fun x => key x = k)).map f).sum
          + ((l.filter (fun x => ¬ key x = k)).map f).sum := by rw [hrec]
      _ = (l.map f).sum := by
          have := sum_map_filter_split (fun x => decide (key x = k)) f l
          simpa using this

/-- The grouped batches sum to the payment total. -/
theorem groupBatches_total_sum (ps : List FmtPayment) :
    ((groupBatches ps).map (fun b => b.totalAmount)).sum
      = (ps.map (fun p => p.amount)).sum := by
  unfold groupBatches
  rw [List.map_map]
  have hcov : ∀ x ∈ ps, batchKeyOf x ∈ (ps.map batchKeyOf).dedup := by
    intro x hx
    rw [List.mem_dedup]
    exact List.mem_map_of_mem batchKeyOf hx
  have := sum_map_filter_key batchKeyOf (fun p => p.amount)
    ((ps.map batchKeyOf).dedup) ps (List.nodup_dedup _) hcov
  rw [← this]
  rfl

/-- Sorting the batches does not change the total. -/
theorem sortBatches_total_sum (bs : List FmtBatch) :
    ((sortBatches bs).map (fun b => b.totalAmount)).sum
      = (bs.map (fun b => b.totalAmount)).sum :=
  List.Perm.sum_eq (List.Perm.map _ (List.mergeSort_perm bs batchLE))

/-- `formatCurrency` always returns a whole number of cents. -/
theorem formatCurrency_isCenti (x : ℚ) : IsCenti (formatCurrency x) := by
  unfold formatCurrency
  split
  · exact ⟨⌊x * 100 + 1/2⌋, rfl⟩
  · exact ⟨-⌊(-x) * 100 + 1/2⌋, by push_cast; ring⟩

/-- Sums of whole-cent values are whole-cent values. -/
theorem isCenti_sum (l : List ℚ) (h : ∀ x ∈ l, IsCenti x) :
    IsCenti l.sum := by
  induction l with
  | nil => exact ⟨0, by norm_num⟩
  | cons a t ih =>
    obtain ⟨m, hm⟩ := h a (by simp)
    obtain ⟨n, hn⟩ := ih (fun x hx => h x (by simp [hx]))
    refine ⟨m + n, ?_⟩
    rw [List.sum_cons, hm, hn]
    push_cast
    ring

/-- Half-up rounding to cents fixes whole-cent values. -/
theorem formatCurrency_eq_self (x : ℚ) (h : IsCenti x) :
    formatCurrency x = x := by
  obtain ⟨m, rfl⟩ := h
  have hfloor : ∀ z : ℤ, ⌊((z : ℚ) / 100) * 100 + 1/2⌋ = z := by
    intro z
    have h1 : ((z : ℚ) / 100) * 100 = (z : ℚ) := by field_simp
    rw [h1]
    rw [show ((z : ℚ) + 1/2) = (1/2 : ℚ) + (z : ℚ) from by ring,
      Int.floor_add_int]
    norm_num
  unfold formatCurrency
  split
  · rw [hfloor m]
  · have h2 : -((m : ℚ) / 100) = ((-m : ℤ) : ℚ) / 100 := by push_cast; ring
    rw [h2, hfloor (-m)]
    push_cast
    ring

/-- C5: for every generated proposal the batch totals sum to the summary
total amount, and the summary total amount is the half-up-rounded sum of
the individual payment amounts. -/
theorem batch_totals_conservation (rs : List FinRecord)
    (risk : FmtRiskInput) (c : FmtConstraints) :
    ((runFormatter rs risk c).paymentBatches.map
        (fun b => b.totalAmount)).sum
      = (runFormatter rs risk c).summaryTotalAmount
    ∧ (runFormatter rs risk c).summaryTotalAmount
      = formatCurrency (((runFormatter rs risk c).individualPayments.map
          (fun p => p.amount)).sum) := by
  by_cases hre : rs.isEmpty
  · constructor
    · simp [runFormatter, hre]
    · simp only [runFormatter, hre, if_true]
      norm_num [formatCurrency]
  · have hre2 : rs.isEmpty = false := by simpa using hre
    have hpay : (runFormatter rs risk c).individualPayments
        = rs.map (mkPayment risk.flaggedIds) := by
      simp [runFormatter, hre2]
    have hcenti : IsCenti (((rs.map (mkPayment risk.flaggedIds)).map
        (fun p => p.amount)).sum) := by
      refine isCenti_sum _ ?_
      intro x hx
      simp only [List.map_map, List.mem_map] at hx
      obtain ⟨r, _, hr⟩ := hx
      rw [← hr]
      exact formatCurrency_isCenti r.amount
    constructor
    · have hsum : ((runFormatter rs risk c).paymentBatches.map
          (fun b => b.totalAmount)).sum
          = ((rs.map (mkPayment risk.flaggedIds)).map
              (fun p => p.amount)).sum := by
        have hb : (runFormatter rs risk c).paymentBatches
            = sortBatches (groupBatches (rs.map (mkPayment risk.flaggedIds))) := by
          simp [runFormatter, hre2]
        rw [hb, sortBatches_total_sum, groupBatches_total_sum]
      have hsummary : (runFormatter rs risk c).summaryTotalAmount
          = formatCurrency (((rs.map (mkPayment risk.flaggedIds)).map
              (fun p => p.amount)).sum) := by
        simp [runFormatter, hre2]
      rw [hsum, hsummary, formatCurrency_eq_self _ hcenti]
    · rw [hpay]
      simp [runFormatter, hre2]

/-- C10: the formatter run on an empty normalized record list returns the
NO_PAYMENTS_REQUIRED proposal with zero total, no payments, no batches and
the untouched initial approval requirements. -/
theorem empty_records_short_circuit (risk : FmtRiskInput)
    (c : FmtConstraints) :
    (runFormatter [] risk c).status = "NO_PAYMENTS_REQUIRED"
    ∧ (runFormatter [] risk c).summaryTotalAmount = 0
    ∧ (runFormatter [] risk c).individualPayments = []
    ∧ (runFormatter [] risk c).paymentBatches = []
    ∧ (runFormatter [] risk c).requiredApprovers = 1
    ∧ (runFormatter [] risk c).requiresManualReview = false
    ∧ (runFormatter [] risk c).hasApprovalDeadline = false := by
  refine ⟨rfl, rfl, rfl, rfl, rfl, rfl, rfl⟩

/-- C4 counterexample: a payment-approval HITL checkpoint for a LOW-risk
proposal with total 60000 and no escalation gets 2 required approvals,
while the claimed common rule yields 1 for that input. -/
theorem hitl_approver_count_diverges :
    hitlRequiredApprovals "payment_approval" "LOW" 60000 "STANDARD" false = 2
    ∧ specRequiredApprovers "LOW" 60000 500000 = 1 := by
  constructor
  · norm_num [hitlRequiredApprovals]
  · norm_num [specRequiredApprovers]
    decide

/-- C4 (amended): the formatter path follows the claimed rule exactly — 3
approvers when escalation fires (CRITICAL or total above the escalation
threshold, default 500000), else 2 for HIGH or CRITICAL, else 1 — but the
HITL payment path instead gives 3 exactly when the stored escalation flag
is set and 2 whenever risk is HIGH or CRITICAL or the total exceeds 50000,
else 1. -/
theorem required_approvers_two_paths (payments : List FmtPayment)
    (risk : FmtRiskInput) (c : FmtConstraints)
    (rl al : String) (t : ℚ) (esc : Bool) :
    (determineApprovalRequirements payments risk c).requiredApprovers
      = specRequiredApprovers risk.riskLevel
          ((payments.map (fun p => p.amount)).sum)
          (c.escalationThreshold.getD 500000)
    ∧ hitlRequiredApprovals "payment_approval" rl t al esc
      = (if esc then 3
         else if rl = "HIGH" ∨ rl = "CRITICAL" ∨ 50000 < t then 2
         else 1) := by
  constructor
  · by_cases h1 : risk.riskLevel = "CRITICAL" <;>
    by_cases h2 : c.escalationThreshold.getD 500000
        < (payments.map (fun p => p.amount)).sum <;>
    by_cases h3 : risk.riskLevel = "HIGH" <;>
      simp [determineApprovalRequirements, specRequiredApprovers, h1, h2, h3]
  · cases esc with
    | true =>
      simp only [hitlRequiredApprovals, if_true]
      split_ifs <;> rfl
    | false =>
      by_cases h1 : rl = "HIGH" <;> by_cases h2 : rl = "CRITICAL" <;>
      by_cases h3 : (100000:ℚ) < t <;> by_cases h4 : (50000:ℚ) < t <;>
        first
          | (simp [hitlRequiredApprovals, h1, h2, h3, h4]; done)
          | (exfalso; linarith)

/-- C8: whenever the available funds are nonpositive (including exactly 0)
the analyzer short-circuits: status NO_FUNDS_AVAILABLE, no
recommendations, and reserve, allocation and approval fields keep their
initial values. -/
theorem no_funds_short_circuit (funds : ℚ) (prefs : InvestPreferences)
    (h : funds ≤ 0) :
    (runInvestmentAnalyzer funds prefs).status = "NO_FUNDS_AVAILABLE"
    ∧ (runInvestmentAnalyzer funds prefs).recommendedInvestments = []
    ∧ (runInvestmentAnalyzer funds prefs).emergencyReserve = 0
    ∧ (runInvestmentAnalyzer funds prefs).totalAllocated = 0
    ∧ (runInvestmentAnalyzer funds prefs).fiatSavings
        = { allocation := 0, percentage := 0 }
    ∧ (runInvestmentAnalyzer funds prefs).cryptoDefi
        = { allocation := 0, percentage := 0 }
    ∧ (runInvestmentAnalyzer funds prefs).liquidityProducts
        = { allocation := 0, percentage := 0 }
    ∧ (runInvestmentAnalyzer funds prefs).minimumApprovalLevel = "STANDARD"
    ∧ (runInvestmentAnalyzer funds prefs).hasApprovalDeadline = false := by
  simp [runInvestmentAnalyzer, h]

/-- Witness for the C8 theorem at exactly zero remaining balance. -/
theorem no_funds_short_circuit_witness :
    (runInvestmentAnalyzer 0 zeroCustomPrefs).status = "NO_FUNDS_AVAILABLE"
    ∧ (runInvestmentAnalyzer 0 zeroCustomPrefs).recommendedInvestments = []
    ∧ (runInvestmentAnalyzer 0 zeroCustomPrefs).emergencyReserve = 0
    ∧ (runInvestmentAnalyzer 0 zeroCustomPrefs).totalAllocated = 0
    ∧ (runInvestmentAnalyzer 0 zeroCustomPrefs).fiatSavings
        = { allocation := 0, percentage := 0 }
    ∧ (runInvestmentAnalyzer 0 zeroCustomPrefs).cryptoDefi
        = { allocation := 0, percentage := 0 }
    ∧ (runInvestmentAnalyzer 0 zeroCustomPrefs).liquidityProducts
        = { allocation := 0, percentage := 0 }
    ∧ (runInvestmentAnalyzer 0 zeroCustomPrefs).minimumApprovalLevel = "STANDARD"
    ∧ (runInvestmentAnalyzer 0 zeroCustomPrefs).hasApprovalDeadline = false :=
  no_funds_short_circuit 0 zeroCustomPrefs le_rfl

/-- The normalized percentages of the all-zero custom allocation. -/
theorem normalizedPercentages_zeroCustom :
    normalizedPercentages zeroCustomPrefs
      = { fiat := 0, crypto := 0, liquidity := 0 } := by
  simp [normalizedPercentages, rawPercentages, zeroCustomPrefs]

/-- C7 counterexample: with positive funds and caller-supplied custom
percentages all zero, the normalization is skipped entirely: the category
fractions sum to 0 (not 1) and the reported percentages sum to 0 (not
100). -/
theorem allocation_percentages_not_normalized :
    ((normalizedPercentages zeroCustomPrefs).fiat
      + (normalizedPercentages zeroCustomPrefs).crypto
      + (normalizedPercentages zeroCustomPrefs).liquidity = 0)
    ∧ ((normalizedPercentages zeroCustomPrefs).fiat
      + (normalizedPercentages zeroCustomPrefs).crypto
      + (normalizedPercentages zeroCustomPrefs).liquidity ≠ 1)
    ∧ ((runInvestmentAnalyzer 10000 zeroCustomPrefs).fiatSavings.percentage
      + (runInvestmentAnalyzer 10000 zeroCustomPrefs).cryptoDefi.percentage
      + (runInvestmentAnalyzer 10000 zeroCustomPrefs).liquidityProducts.percentage
        = 0)
    ∧ ((runInvestmentAnalyzer 10000 zeroCustomPrefs).fiatSavings.percentage
      + (runInvestmentAnalyzer 10000 zeroCustomPrefs).cryptoDefi.percentage
      + (runInvestmentAnalyzer 10000 zeroCustomPrefs).liquidityProducts.percentage
        ≠ 100) := by
  have hz : ¬ (10000 : ℚ) ≤ 0 := by norm_num
  have hpy : pyRound1 (0 : ℚ) = 0 := by
    norm_num [pyRound1]
  refine ⟨?_, ?_, ?_, ?_⟩ <;>
    simp [runInvestmentAnalyzer, hz, normalizedPercentages_zeroCustom, hpy]

/-- C7 (amended): whenever the three (custom-overridden) percentages sum
to a positive value, the normalized category fractions sum exactly to 1;
the plan reports each category percentage as that fraction times 100
rounded half-to-even to one decimal (so the reported three need not sum to
exactly 100). -/
theorem normalized_percentages_sum_to_one (funds : ℚ)
    (prefs : InvestPreferences) (hf : 0 < funds)
    (hpos : 0 < (rawPercentages prefs).fiat + (rawPercentages prefs).crypto
      + (rawPercentages prefs).liquidity) :
    (normalizedPercentages prefs).fiat + (normalizedPercentages prefs).crypto
      + (normalizedPercentages prefs).liquidity = 1
    ∧ (runInvestmentAnalyzer funds prefs).fiatSavings.percentage
        = pyRound1 ((normalizedPercentages prefs).fiat * 100)
    ∧ (runInvestmentAnalyzer funds prefs).cryptoDefi.percentage
        = pyRound1 ((normalizedPercentages prefs).crypto * 100)
    ∧ (runInvestmentAnalyzer funds prefs).liquidityProducts.percentage
        = pyRound1 ((normalizedPercentages prefs).liquidity * 100) := by
  have hc : ¬ funds ≤ 0 := not_le.mpr hf
  have hne : (rawPercentages prefs).fiat + (rawPercentages prefs).crypto
      + (rawPercentages prefs).liquidity ≠ 0 := ne_of_gt hpos
  refine ⟨?_, ?_, ?_, ?_⟩
  · simp only [normalizedPercentages, if_pos hpos]
    field_simp
  · simp only [runInvestmentAnalyzer, if_neg hc]
  · simp only [runInvestmentAnalyzer, if_neg hc]
  · simp only [runInvestmentAnalyzer, if_neg hc]

/-- Witness for the amended C7 theorem on explicit moderate custom
percentages. -/
theorem normalized_percentages_sum_to_one_witness :
    (normalizedPercentages moderateCustomPrefs).fiat
      + (normalizedPercentages moderateCustomPrefs).crypto
      + (normalizedPercentages moderateCustomPrefs).liquidity = 1
    ∧ (runInvestmentAnalyzer 10000 moderateCustomPrefs).fiatSavings.percentage
        = pyRound1 ((normalizedPercentages moderateCustomPrefs).fiat * 100)
    ∧ (runInvestmentAnalyzer 10000 moderateCustomPrefs).cryptoDefi.percentage
        = pyRound1 ((normalizedPercentages moderateCustomPrefs).crypto * 100)
    ∧ (runInvestmentAnalyzer 10000 moderateCustomPrefs).liquidityProducts.percentage
        = pyRound1 ((normalizedPercentages moderateCustomPrefs).liquidity * 100) :=
  normalized_percentages_sum_to_one 10000 moderateCustomPrefs (by norm_num)
    (by norm_num [rawPercentages, moderateCustomPrefs])

end Treasury
